import Mathlib

/-!
Shallow embedding of the authentication core of the keytchensApp repository:
the validator, the HTTP-client error normalization, the token/user stores and
the orchestrating `AuthService` (src/src/services/AuthService.ts,
src/src/services/api/HttpClient.ts, src/src/types/auth.types.ts).

Stateful code is embedded by explicit state passing: the Token Store and the
User Store become the two fields of `AuthState`, and each service operation is
a function from `AuthState` to a result together with the successor state.
-/

namespace Keytchens

/-- The `AuthErrorType` enum of auth.types.ts. -/
inductive AuthErrorType where
  | INVALID_CREDENTIALS
  | NETWORK_ERROR
  | UNKNOWN_ERROR
  | VALIDATION_ERROR
  deriving DecidableEq, Repr

/-- The `AuthError` interface of auth.types.ts:
`{ type: AuthErrorType; message: string; statusCode?: number }`. -/
structure AuthError where
  type : AuthErrorType
  message : String
  statusCode : Option Nat := none
  deriving DecidableEq, Repr

/-- The `LoginRequest` payload: `{ email: string; password: string }`. -/
structure LoginRequest where
  email : String
  password : String
  deriving DecidableEq, Repr

/-- The domain `User` as mapped by `AuthService.login`
(`{ id, email, roles, lang, enabled }`). -/
structure User where
  id : String
  email : String
  roles : List String
  lang : String
  enabled : Bool
  deriving DecidableEq, Repr

/-- The `LoginResponse` returned by `AuthService.login`: `{ user, token }`. -/
structure LoginResponse where
  user : User
  token : String
  deriving DecidableEq, Repr

/-! ### The remote response envelope (`LoginV2ApiResponse` in AuthService.ts)

Every field of the envelope is optional in the TypeScript interface, hence
`Option` everywhere. -/

/-- The nested `user` object of the envelope:
`{ uuid?, email?, roles?, lang?, enabled? }`. -/
structure ApiUser where
  uuid : Option String
  email : Option String
  roles : Option (List String)
  lang : Option String
  enabled : Option Bool
  deriving DecidableEq, Repr

/-- The `loginV2` object of the envelope: `{ token?, user? }`. -/
structure LoginV2Data where
  token : Option String
  user : Option ApiUser
  deriving DecidableEq, Repr

/-- The `data` object of the envelope: `{ loginV2? }`. -/
structure ApiData where
  loginV2 : Option LoginV2Data
  deriving DecidableEq, Repr

/-- `LoginV2ApiResponse`: `{ data? }`. -/
structure LoginV2ApiResponse where
  data : Option ApiData
  deriving DecidableEq, Repr

/-! ### Validator (AuthService.ts lines 57-90) -/

/-- The character class `[^\s@]` of `EMAIL_REGEX`: any character that is
neither whitespace nor `@`. -/
def isEmailChar (c : Char) : Bool :=
  !c.isWhitespace && c ≠ '@'

/-- Embedding of `EMAIL_REGEX.test`, for `EMAIL_REGEX = /^[^\s@]+@[^\s@]+\.[^\s@]+$/`:
the whole string is a nonempty run of `[^\s@]`, one `@`, then a run of
`[^\s@]` containing a `.` with at least one `[^\s@]` character on each side
(positions `1 .. len-2` of the part after `@`). -/
def emailRegexTest (s : String) : Bool :=
  let cs := s.data
  let localPart := cs.takeWhile (· ≠ '@')
  match cs.dropWhile (· ≠ '@') with
  | '@' :: domainPart =>
      !localPart.isEmpty && localPart.all isEmailChar &&
      !domainPart.isEmpty && domainPart.all isEmailChar &&
      ((domainPart.drop 1).dropLast).contains '.'
  | _ => false

/-- The method `AuthValidator.validateLoginRequest` (AuthService.ts lines 66-89).
JavaScript string falsiness: `!request.email` is true exactly for the empty
string. -/
def validateLoginRequest (request : LoginRequest) : Option AuthError :=
  if request.email = "" ∨ request.password = "" then
    some { type := .VALIDATION_ERROR, message := "Email and password are required" }
  else if ¬ emailRegexTest request.email then
    some { type := .VALIDATION_ERROR, message := "Invalid email format" }
  else if request.password.length < 6 then
    some { type := .VALIDATION_ERROR, message := "Password must be at least 6 characters" }
  else
    none

/-! ### Storage state

The Token Store and the User Store are single-slot stores; `none` is the
absence marker of a storage read. -/

/-- The combined state of the Token Store and the User Store. -/
structure AuthState where
  token : Option String
  user : Option User
  deriving DecidableEq, Repr

/-! ### AuthService (AuthService.ts lines 101-194) -/

/-- The `AuthError` thrown on a malformed envelope (AuthService.ts 145-148). -/
def invalidLoginResponseError : AuthError :=
  { type := .UNKNOWN_ERROR, message := "Invalid login response" }

/-- The response-processing tail of `AuthService.login`
(AuthService.ts lines 141-170), as a function of the envelope it is applied
to: extract `data?.loginV2`, throw `invalidLoginResponseError` when
`!loginData?.token || !loginData.user?.uuid || !loginData.user.email`
(JavaScript falsiness: absent or empty string), otherwise map the user
(`roles ?? []`, `lang ?? 'fr-FR'`, `Boolean(enabled)`), write the token to
the Token Store, write the user to the User Store when one is configured
(`hasUserStorage`), and return `{ user, token }`. -/
def loginFromResponse (apiResponse : LoginV2ApiResponse) (hasUserStorage : Bool)
    (st : AuthState) : Except AuthError LoginResponse × AuthState :=
  match apiResponse.data.bind (·.loginV2) with
  | none => (.error invalidLoginResponseError, st)
  | some loginData =>
    match loginData.token, loginData.user with
    | some tok, some u =>
      match u.uuid, u.email with
      | some uuid, some email =>
        if tok = "" ∨ uuid = "" ∨ email = "" then
          (.error invalidLoginResponseError, st)
        else
          let mappedUser : User :=
            { id := uuid
              email := email
              roles := u.roles.getD []
              lang := u.lang.getD "fr-FR"
              enabled := u.enabled.getD false }
          let response : LoginResponse := { user := mappedUser, token := tok }
          (.ok response,
           { token := some response.token
             user := if hasUserStorage then some response.user else st.user })
      | _, _ => (.error invalidLoginResponseError, st)
    | _, _ => (.error invalidLoginResponseError, st)

/-- The hard-coded mock envelope built inside `AuthService.login`
(AuthService.ts lines 127-140); `now` stands for `Date.now()`. -/
def mockLoginResponse (credentials : LoginRequest) (now : Nat) : LoginV2ApiResponse :=
  let mockUser : ApiUser :=
    { uuid := some "mock_uuid_123"
      email := some credentials.email
      roles := some ["user"]
      lang := some "fr-FR"
      enabled := some true }
  let loginV2 : LoginV2Data :=
    { token := some ("mock_token_" ++ toString now), user := some mockUser }
  { data := some { loginV2 := some loginV2 } }

/-- The method `AuthService.login` (AuthService.ts lines 115-171). The validator is the
injected `IAuthValidator`. The third component of the result counts the
`Transport.post` invocations the call performed: it is `0` on every path
because the `httpClient.post` call (lines 122-125) is commented out in the
source and replaced by `mockLoginResponse`. -/
def login (validator : LoginRequest → Option AuthError) (credentials : LoginRequest)
    (now : Nat) (hasUserStorage : Bool) (st : AuthState) :
    Except AuthError LoginResponse × AuthState × Nat :=
  match validator credentials with
  | some validationError => (.error validationError, st, 0)
  | none =>
    let apiResponse := mockLoginResponse credentials now
    let (res, st') := loginFromResponse apiResponse hasUserStorage st
    (res, st', 0)

/-- The method `AuthService.getToken` (AuthService.ts 176-178): passthrough read of the
Token Store. -/
def getToken (st : AuthState) : Option String :=
  st.token

/-- The method `AuthService.logout` (AuthService.ts 183-185): calls
`tokenStorage.removeToken()` only — the User Store is not touched. -/
def logout (st : AuthState) : AuthState :=
  { st with token := none }

/-- The method `AuthService.isAuthenticated` (AuthService.ts 190-193):
`Boolean(token)` for `token : string | null`, which is `false` for `null`
and for the empty string. -/
def isAuthenticated (st : AuthState) : Bool :=
  match st.token with
  | none => false
  | some t => t ≠ ""

/-! ### HttpClient error normalization (HttpClient.ts lines 106-149) -/

/-- A value caught by `HttpClient.request`'s catch block, classified the way
`handleFetchError` inspects it: a value passing the `isAuthError` shape guard
(an object with `type` and `message` fields), a `TypeError` instance, any
other `Error` instance carrying its `name`, or any other thrown value. -/
inductive FetchFailure where
  | authErr (e : AuthError)
  | typeErr
  | errNamed (name : String)
  | other
  deriving DecidableEq, Repr

/-- The method `HttpClient.createError` (HttpClient.ts 106-120): maps a non-2xx HTTP
status and its status text to an `AuthError`. -/
def createError (statusCode : Nat) (statusText : String) : AuthError :=
  if statusCode = 401 ∨ statusCode = 403 then
    { type := .INVALID_CREDENTIALS
      message := "Invalid email or password"
      statusCode := some statusCode }
  else
    { type := .UNKNOWN_ERROR, message := statusText, statusCode := some statusCode }

/-- The method `HttpClient.handleFetchError` (HttpClient.ts 125-149). -/
def handleFetchError : FetchFailure → AuthError
  | .authErr e => e
  | .typeErr =>
      { type := .NETWORK_ERROR, message := "Network error. Please check your connection." }
  | .errNamed name =>
      if name = "AbortError" then
        { type := .NETWORK_ERROR, message := "Request timeout. Please try again." }
      else
        { type := .UNKNOWN_ERROR, message := "An unexpected error occurred" }
  | .other =>
      { type := .UNKNOWN_ERROR, message := "An unexpected error occurred" }

/-! ## Theorems -/

/-- Helper: whenever `loginFromResponse` succeeds, the returned token is the
one just written to the Token Store, and (when a User Store is configured)
the returned user is the one just written to the User Store. -/
theorem loginFromResponse_ok_persists (resp : LoginV2ApiResponse) (h : Bool)
    (st : AuthState) (res : LoginResponse) (st' : AuthState)
    (hok : loginFromResponse resp h st = (.ok res, st')) :
    st'.token = some res.token ∧ (h = true → st'.user = some res.user) := by
  unfold loginFromResponse at hok
  split at hok
  · simp at hok
  · split at hok
    · split at hok
      · split at hok
        · simp at hok
        · simp only [Prod.mk.injEq, Except.ok.injEq] at hok
          obtain ⟨h1, h2⟩ := hok
          subst h1
          subst h2
          refine ⟨rfl, fun hh => ?_⟩
          simp [hh]
      · simp at hok
    · simp at hok

/-- C1: evaluation of `login` at valid credentials: the code never invokes
Transport's `post` (invocation count `0`) and succeeds with the hard-coded
mock token and user, regardless of what the Transport would have answered —
the `httpClient.post` call in the source is commented out. -/
theorem login_uses_mock_not_transport :
    login validateLoginRequest ⟨"test@example.com", "password123"⟩ 7 true ⟨none, none⟩ =
      (.ok ⟨⟨"mock_uuid_123", "test@example.com", ["user"], "fr-FR", true⟩, "mock_token_7"⟩,
       ⟨some "mock_token_7",
        some ⟨"mock_uuid_123", "test@example.com", ["user"], "fr-FR", true⟩⟩, 0) := rfl

/-- C2 counterexample: `logout` does not clear the User Store — starting from
a state holding a user, after `logout()` the User Store still holds that
user, not the absence marker. -/
theorem logout_leaves_user_store_cex :
    (logout ⟨some "tok1", some ⟨"u1", "a@b.com", ["user"], "fr-FR", true⟩⟩).user ≠ none ∧
    (logout ⟨some "tok1", some ⟨"u1", "a@b.com", ["user"], "fr-FR", true⟩⟩).user =
      some ⟨"u1", "a@b.com", ["user"], "fr-FR", true⟩ := by
  exact ⟨by simp [logout], rfl⟩

/-- C2 amended: after any `logout()`, the Token Store holds the absence
marker and `isAuthenticated()` returns `false`, while the User Store is left
unchanged (logout does not clear the persisted User). -/
theorem logout_clears_token_only (st : AuthState) :
    (logout st).token = none ∧ isAuthenticated (logout st) = false ∧
    (logout st).user = st.user :=
  ⟨rfl, rfl, rfl⟩

/-- C2 witness: the amended statement at a concrete state. -/
theorem logout_clears_token_only_witness :
    (logout ⟨some "tok1", some ⟨"u1", "a@b.com", ["user"], "fr-FR", true⟩⟩).token = none :=
  (logout_clears_token_only ⟨some "tok1", some ⟨"u1", "a@b.com", ["user"], "fr-FR", true⟩⟩).1

/-- C3 counterexample: a stored empty-string token is non-absent, yet
`isAuthenticated()` returns `false` for it (`Boolean('')` is `false`). -/
theorem isAuthenticated_empty_token_cex :
    isAuthenticated ⟨some "", none⟩ = false ∧
    (⟨some "", none⟩ : AuthState).token ≠ none := by
  exact ⟨rfl, by simp⟩

/-- C3 amended: `isAuthenticated()` returns `true` iff the Token Store holds
a non-absent AND non-empty token; a stored empty string counts as not
authenticated. -/
theorem isAuthenticated_iff_nonempty_token (st : AuthState) :
    isAuthenticated st = true ↔ ∃ t, st.token = some t ∧ t ≠ "" := by
  obtain ⟨tok, user⟩ := st
  cases tok with
  | none => simp [isAuthenticated]
  | some t => simp [isAuthenticated]

/-- C4 counterexample: an envelope carrying token, uuid and email but missing
`roles`, `lang` and `enabled` is accepted with default values
(`roles = []`, `lang = "fr-FR"`, `enabled = false`) instead of failing with
"Invalid login response". -/
theorem missing_roles_lang_enabled_accepted_cex :
    loginFromResponse ⟨some ⟨some ⟨some "tok1", some ⟨some "u1", some "a@b.com", none, none, none⟩⟩⟩⟩
        true ⟨none, none⟩ =
      (.ok ⟨⟨"u1", "a@b.com", [], "fr-FR", false⟩, "tok1"⟩,
       ⟨some "tok1", some ⟨"u1", "a@b.com", [], "fr-FR", false⟩⟩) ∧
    (loginFromResponse ⟨some ⟨some ⟨some "tok1", some ⟨some "u1", some "a@b.com", none, none, none⟩⟩⟩⟩
        true ⟨none, none⟩).1 ≠ .error invalidLoginResponseError := by
  refine ⟨rfl, fun hcontra => ?_⟩
  exact Except.noConfusion hcontra

/-- C4 amended: only a missing or empty token, user identifier, or user
email triggers the "Invalid login response" failure; an envelope with those
three present and non-empty but missing `roles`, `lang` and `enabled` is
accepted, with defaults `roles = []`, `lang = "fr-FR"`, `enabled = false`. -/
theorem response_defaults_roles_lang_enabled (tok uuid email : String)
    (h : Bool) (st : AuthState)
    (ht : tok ≠ "") (hu : uuid ≠ "") (he : email ≠ "") :
    loginFromResponse ⟨some ⟨some ⟨some tok, some ⟨some uuid, some email, none, none, none⟩⟩⟩⟩ h st =
      (.ok ⟨⟨uuid, email, [], "fr-FR", false⟩, tok⟩,
       ⟨some tok, if h then some ⟨uuid, email, [], "fr-FR", false⟩ else st.user⟩) := by
  unfold loginFromResponse
  simp [ht, hu, he]

/-- C4 witness: the amended statement at a concrete envelope. -/
theorem response_defaults_roles_lang_enabled_witness :
    loginFromResponse ⟨some ⟨some ⟨some "tok1", some ⟨some "u1", some "a@b.com", none, none, none⟩⟩⟩⟩
        false ⟨none, some ⟨"old", "old@x.y", [], "en", false⟩⟩ =
      (.ok ⟨⟨"u1", "a@b.com", [], "fr-FR", false⟩, "tok1"⟩,
       ⟨some "tok1",
        if false then some ⟨"u1", "a@b.com", [], "fr-FR", false⟩
        else (⟨none, some ⟨"old", "old@x.y", [], "en", false⟩⟩ : AuthState).user⟩) :=
  response_defaults_roles_lang_enabled "tok1" "u1" "a@b.com" false
    ⟨none, some ⟨"old", "old@x.y", [], "en", false⟩⟩
    (by decide) (by decide) (by decide)

/-- C5: for every envelope whose token, user identifier (`uuid`) or user
email is missing (the absence marker, which also covers a missing `data`,
`loginV2` or `user` object) or the empty string, the response-processing
step of `login` fails with `UnknownError` "Invalid login response" and the
state is returned unchanged: nothing is written to the Token Store or the
User Store, so the check happens before persistence. -/
theorem invalid_envelope_rejected_before_persist (resp : LoginV2ApiResponse)
    (h : Bool) (st : AuthState)
    (hbad : (resp.data.bind (·.loginV2)).bind (·.token) = none ∨
            (resp.data.bind (·.loginV2)).bind (·.token) = some "" ∨
            ((resp.data.bind (·.loginV2)).bind (·.user)).bind (·.uuid) = none ∨
            ((resp.data.bind (·.loginV2)).bind (·.user)).bind (·.uuid) = some "" ∨
            ((resp.data.bind (·.loginV2)).bind (·.user)).bind (·.email) = none ∨
            ((resp.data.bind (·.loginV2)).bind (·.user)).bind (·.email) = some "") :
    loginFromResponse resp h st = (.error invalidLoginResponseError, st) := by
  obtain ⟨d⟩ := resp
  cases d with
  | none => rfl
  | some ad =>
    obtain ⟨lv⟩ := ad
    cases lv with
    | none => rfl
    | some ld =>
      obtain ⟨tokOpt, userOpt⟩ := ld
      cases tokOpt with
      | none => rfl
      | some tok =>
        cases userOpt with
        | none => rfl
        | some u =>
          obtain ⟨uuidOpt, emailOpt, rolesOpt, langOpt, enabledOpt⟩ := u
          cases uuidOpt with
          | none => rfl
          | some uuid =>
            cases emailOpt with
            | none => rfl
            | some email =>
              simp only [Option.some_bind, Option.some.injEq,
                reduceCtorEq, false_or] at hbad
              unfold loginFromResponse
              simp only [Option.some_bind]
              rw [if_pos]
              rcases hbad with h1 | h2 | h3
              · exact Or.inl h1
              · exact Or.inr (Or.inl h2)
              · exact Or.inr (Or.inr h3)

/-- C5 witness: an envelope with an empty token is rejected with the state
untouched. -/
theorem invalid_envelope_rejected_before_persist_witness :
    loginFromResponse ⟨some ⟨some ⟨some "", some ⟨some "u1", some "a@b.com", none, none, none⟩⟩⟩⟩
        true ⟨some "old_token", none⟩ =
      (.error invalidLoginResponseError, ⟨some "old_token", none⟩) :=
  invalid_envelope_rejected_before_persist
    ⟨some ⟨some ⟨some "", some ⟨some "u1", some "a@b.com", none, none, none⟩⟩⟩⟩
    true ⟨some "old_token", none⟩ (Or.inr (Or.inl rfl))

/-- C6: for the credential pair with empty email and empty password, the
validator returns the `ValidationError` with the "required" message — not
the email-format or password-length message. -/
theorem validate_empty_both_required_message :
    validateLoginRequest ⟨"", ""⟩ =
      some { type := .VALIDATION_ERROR, message := "Email and password are required" } := rfl

/-- C7: for every email accepted by `EMAIL_REGEX` and every password of
length at least 6, the validator returns the no-error result. -/
theorem validate_accepts_valid_email_long_password (e p : String)
    (he : emailRegexTest e = true) (hp : 6 ≤ p.length) :
    validateLoginRequest ⟨e, p⟩ = none := by
  have he' : e ≠ "" := by
    intro hcontra
    subst hcontra
    exact absurd he (by decide)
  have hp' : p ≠ "" := by
    intro hcontra
    subst hcontra
    exact absurd hp (by decide)
  unfold validateLoginRequest
  rw [if_neg (by push_neg; exact ⟨he', hp'⟩), if_neg (by simp [he]),
    if_neg (show ¬(p.length < 6) by omega)]

/-- C7 witness: a concrete well-formed credential pair passes validation. -/
theorem validate_accepts_valid_email_long_password_witness :
    validateLoginRequest ⟨"a@b.com", "longenough"⟩ = none :=
  validate_accepts_valid_email_long_password "a@b.com" "longenough" (by decide) (by decide)

/-- C8 counterexample: an `Error` named `AbortError` — which is neither a
well-formed `AuthError` nor a `TypeError` — is normalized to a
`NetworkError` (the timeout message), not to `UnknownError`; and the
`UnknownError` message produced for other failures is
"An unexpected error occurred" without the trailing period. -/
theorem handleFetchError_abort_and_message_cex :
    (handleFetchError (.errNamed "AbortError")).type = .NETWORK_ERROR ∧
    (handleFetchError (.errNamed "AbortError")).type ≠ .UNKNOWN_ERROR ∧
    (handleFetchError .other).message ≠ "An unexpected error occurred." := by
  refine ⟨rfl, by decide, by decide⟩

/-- C8 amended: a failure already passing the `isAuthError` shape guard is
returned unchanged; a `TypeError`-class failure maps to `NetworkError`
"Network error. Please check your connection."; an `Error` named
`AbortError` maps to `NetworkError` "Request timeout. Please try again.";
every other failure maps to `UnknownError` with message
"An unexpected error occurred" (no trailing period). -/
theorem handleFetchError_normalization :
    (∀ e : AuthError, handleFetchError (.authErr e) = e) ∧
    handleFetchError .typeErr =
      { type := .NETWORK_ERROR, message := "Network error. Please check your connection." } ∧
    handleFetchError (.errNamed "AbortError") =
      { type := .NETWORK_ERROR, message := "Request timeout. Please try again." } ∧
    (∀ name : String, name ≠ "AbortError" →
      handleFetchError (.errNamed name) =
        { type := .UNKNOWN_ERROR, message := "An unexpected error occurred" }) ∧
    handleFetchError .other =
      { type := .UNKNOWN_ERROR, message := "An unexpected error occurred" } := by
  refine ⟨fun e => rfl, rfl, rfl, fun name hname => ?_, rfl⟩
  simp [handleFetchError, hname]

/-- C8 witness: the amended statement applied at a concrete non-AbortError
failure. -/
theorem handleFetchError_normalization_witness :
    handleFetchError (.errNamed "SyntaxError") =
      { type := .UNKNOWN_ERROR, message := "An unexpected error occurred" } :=
  handleFetchError_normalization.2.2.2.1 "SyntaxError" (by decide)

/-- C9: for every validator, whenever validation fails, `login` fails with
exactly the validator's `AuthError`, performs zero `Transport.post` calls,
and leaves the Token Store and the User Store unchanged. -/
theorem login_validation_failure_no_effects (v : LoginRequest → Option AuthError)
    (creds : LoginRequest) (now : Nat) (h : Bool) (st : AuthState) (e : AuthError)
    (hv : v creds = some e) :
    login v creds now h st = (.error e, st, 0) := by
  unfold login
  rw [hv]

/-- C9 witness: `login` at empty credentials with the default validator. -/
theorem login_validation_failure_no_effects_witness :
    login validateLoginRequest ⟨"", ""⟩ 0 true
        ⟨some "old_token", some ⟨"u1", "a@b.com", ["user"], "fr-FR", true⟩⟩ =
      (.error { type := .VALIDATION_ERROR, message := "Email and password are required" },
       ⟨some "old_token", some ⟨"u1", "a@b.com", ["user"], "fr-FR", true⟩⟩, 0) :=
  login_validation_failure_no_effects validateLoginRequest ⟨"", ""⟩ 0 true
    ⟨some "old_token", some ⟨"u1", "a@b.com", ["user"], "fr-FR", true⟩⟩
    { type := .VALIDATION_ERROR, message := "Email and password are required" } rfl

/-- C10: whenever `login` returns successfully, the token in the returned
result is exactly the token just written to the Token Store, and, when a
User Store is configured, the user in the returned result is exactly the
user just written to the User Store. -/
theorem login_result_matches_persisted (v : LoginRequest → Option AuthError)
    (creds : LoginRequest) (now : Nat) (h : Bool) (st : AuthState)
    (res : LoginResponse) (st' : AuthState) (n : Nat)
    (hok : login v creds now h st = (.ok res, st', n)) :
    st'.token = some res.token ∧ (h = true → st'.user = some res.user) := by
  cases hv : v creds with
  | some e =>
    have heq : login v creds now h st = (.error e, st, 0) := by
      unfold login
      rw [hv]
    rw [heq] at hok
    simp at hok
  | none =>
    have heq : login v creds now h st =
        ((loginFromResponse (mockLoginResponse creds now) h st).1,
         (loginFromResponse (mockLoginResponse creds now) h st).2, 0) := by
      unfold login
      rw [hv]
    rw [heq] at hok
    have h1 : (loginFromResponse (mockLoginResponse creds now) h st).1 = .ok res :=
      congrArg (fun x => x.1) hok
    have h2 : (loginFromResponse (mockLoginResponse creds now) h st).2 = st' :=
      congrArg (fun x => x.2.1) hok
    have hfr : loginFromResponse (mockLoginResponse creds now) h st = (.ok res, st') := by
      rw [← h1, ← h2]
    exact loginFromResponse_ok_persists (mockLoginResponse creds now) h st res st' hfr

/-- C10 witness: concrete successful login with the default validator. -/
theorem login_result_matches_persisted_witness :
    (⟨some "mock_token_7",
      some ⟨"mock_uuid_123", "test@example.com", ["user"], "fr-FR", true⟩⟩ : AuthState).token =
      some ("mock_token_7" : String) ∧
    (true = true →
      (⟨some "mock_token_7",
        some ⟨"mock_uuid_123", "test@example.com", ["user"], "fr-FR", true⟩⟩ : AuthState).user =
        some ⟨"mock_uuid_123", "test@example.com", ["user"], "fr-FR", true⟩) :=
  login_result_matches_persisted validateLoginRequest ⟨"test@example.com", "password123"⟩ 7 true
    ⟨none, none⟩
    ⟨⟨"mock_uuid_123", "test@example.com", ["user"], "fr-FR", true⟩, "mock_token_7"⟩
    ⟨some "mock_token_7", some ⟨"mock_uuid_123", "test@example.com", ["user"], "fr-FR", true⟩⟩
    0 rfl

end Keytchens
